/-
Verification of the x402 action-provider core of the cdp-agentkit repository.

Shallow embedding of the relevant Python code:
  * coinbase_agentkit/action_providers/x402/utils.py
  * coinbase_agentkit/action_providers/x402/x402_action_provider.py
  * coinbase_agentkit/action_providers/x402/constants.py

Machine integers are modelled as `Nat`; Python dictionaries with optional
keys become structures with `Option` fields; functions that may raise
return `Option`; the network is an oracle argument.  Statements and proofs
follow at the end of the file.
-/
import Mathlib

namespace X402

/-! ### `_format_units` (utils.py)

Formats atomic units to a human-readable decimal string.
Mirrors `_format_units(value, decimals)`. -/

/-- Embedding of `_format_units` from utils.py: integer division by
`10^decimals`, remainder rendered with leading zeros then right-stripped
of zeros. -/
def format_units (value : Nat) (decimals : Nat) : String :=
  if decimals = 0 then toString value
  else
    let divisor := 10 ^ decimals
    let whole := value / divisor
    let remainder := value % divisor
    if remainder = 0 then toString whole
    else
      let padded := List.replicate (decimals - (toString remainder).length) '0' ++
        (toString remainder).toList
      let remainder_str := String.mk (padded.reverse.dropWhile (fun c => c = '0')).reverse
      toString whole ++ "." ++ remainder_str

/-! ### `validate_payment_limit` (utils.py)

`validate_payment_limit(amount_atomic: str, max_payment_usdc)` parses the
atomic amount with Python `int(...)` and compares it against
`int(max_payment_usdc * 10**6)`.  The configured ceiling is restricted to
whole USDC units (a natural number `m`), for which
`int(m * 10**6) = m * 10^6` exactly.  The `int(...)` parse of the atomic
string is modelled by `pyInt`; a parse failure (Python `ValueError`) is
`none`. -/

structure PaymentLimitValidation where
  is_valid : Bool
  requested_amount : String
  max_amount : String
  deriving Repr, DecidableEq

/-- Python `int(s)` on a canonical non-negative decimal string: all
characters digits (and at least one), folded to a number; anything else
models a raised `ValueError` (sign/whitespace/underscore forms do not
occur in atomic-unit amounts). -/
def pyInt (s : String) : Option Nat :=
  match s.toList with
  | [] => none
  | cs =>
    if cs.all Char.isDigit then
      some (cs.foldl (fun n c => n * 10 + (c.toNat - '0'.toNat)) 0)
    else none

/-- Embedding of `validate_payment_limit` from utils.py.  Returns `none`
when `int(amount_atomic)` raises. -/
def validate_payment_limit (amount_atomic : String) (max_payment_usdc : Nat) :
    Option PaymentLimitValidation :=
  match pyInt amount_atomic with
  | none => none
  | some requested =>
    let usdc_decimals := 6
    let max_amount_atomic := max_payment_usdc * 10 ^ usdc_decimals
    some {
      is_valid := requested ≤ max_amount_atomic
      requested_amount := format_units requested usdc_decimals
      max_amount := toString max_payment_usdc }

/-! ### `urllib.parse.urlparse` and `is_service_registered` (utils.py)

`is_service_registered` builds the origin `f"{parsed.scheme}://{parsed.netloc}"`
from `urlparse(url)` and matches each registered entry by origin equality or
string prefix.  The scheme/netloc extraction of CPython `urlsplit` is
embedded below: the scheme is the text before the first `:` when it starts
with an ASCII letter and consists of scheme characters (lower-cased on
extraction), and the netloc follows a leading `//` up to the first of
`/`, `?`, `#`.  The reachable `ValueError` of `urlsplit` — an unmatched
`[`/`]` in the netloc — is modelled as `none` (the Python exception is
caught by `is_service_registered`, which then returns `False`). -/

/-- Characters allowed in a URL scheme (CPython `scheme_chars`):
ASCII letters, digits, and `+`, `-`, `.`. -/
def isSchemeChar (c : Char) : Bool :=
  c.isAlpha || c.isDigit || c = '+' || c = '-' || c = '.'

structure ParsedUrl where
  scheme : String
  netloc : String
  deriving Repr, DecidableEq

/-- Embedding of the scheme/netloc extraction of `urllib.parse.urlparse`.
`none` models the `ValueError` raised on an unmatched bracket in the
netloc. -/
def urlparse (url : String) : Option ParsedUrl :=
  let cs := url.toList
  let schemeRest : List Char × List Char :=
    match cs.findIdx? (fun c => c = ':') with
    | some i =>
      if 0 < i &&
          (match cs.head? with | some c => c.isAlpha | none => false) &&
          (cs.take i).all isSchemeChar then
        ((cs.take i).map Char.toLower, cs.drop (i + 1))
      else ([], cs)
    | none => ([], cs)
  let scheme := schemeRest.1
  match schemeRest.2 with
  | '/' :: '/' :: afterSlashes =>
    let netloc := afterSlashes.takeWhile (fun c => !(c = '/' || c = '?' || c = '#'))
    if ('[' ∈ netloc && ']' ∉ netloc) || (']' ∈ netloc && '[' ∉ netloc) then
      none
    else
      some { scheme := String.mk scheme, netloc := String.mk netloc }
  | _ => some { scheme := String.mk scheme, netloc := "" }

/-- The origin string `f"{parsed.scheme}://{parsed.netloc}"` built inside
`is_service_registered`. -/
def urlOrigin (p : ParsedUrl) : String :=
  p.scheme ++ "://" ++ p.netloc

/-- Embedding of `is_service_registered` from utils.py.  The Python `set`
of registered services is modelled as a list (only membership is used). -/
def is_service_registered (url : String) (registered_services : List String) : Bool :=
  if registered_services.isEmpty then false
  else
    match urlparse url with
    | none => false
    | some parsed =>
      registered_services.any fun registered =>
        urlOrigin parsed == registered || url.startsWith registered

/-- Embedding of `is_url_allowed` from utils.py. -/
def is_url_allowed (url : String) (registered_services : List String) : Bool :=
  is_service_registered url registered_services

set_option maxRecDepth 4096

example : urlparse "https://api.example.com/v1/x" =
    some { scheme := "https", netloc := "api.example.com" } := by decide
example : urlparse "https://[abc" = none := by decide
example : is_service_registered "https://api.example.com/v1/x" ["https://api.example.com"] =
    true := by decide
example : is_service_registered "https://evil.com" ["https://api.example.com"] = false := by
  decide

/-! ### `_fetch_with_retry` (utils.py)

`_fetch_with_retry(url, context, max_retries=3, initial_delay_ms=1000)`
loops `attempt` over `range(max_retries + 1)`; a non-ok response or a
request exception counts as a failure.  On failure with
`attempt >= max_retries` it raises; otherwise it sleeps
`initial_delay_ms * 2**attempt` milliseconds and retries.  The network is
an oracle `attempts : Nat → Option β` giving the outcome of each HTTP GET
(`some` = ok response); the result pairs the final outcome (`none` models
the raised `RuntimeError`) with the list of sleep delays in milliseconds.
The recursion carries `remaining = max_retries - attempt` for structural
termination. -/

def fetchRetryGo {β : Type} (attempts : Nat → Option β) (initial_delay_ms : Nat) :
    (attempt : Nat) → (remaining : Nat) → Option β × List Nat
  | attempt, remaining =>
    match attempts attempt with
    | some r => (some r, [])
    | none =>
      match remaining with
      | 0 => (none, [])
      | remaining' + 1 =>
        let delay_ms := initial_delay_ms * 2 ^ attempt
        let rest := fetchRetryGo attempts initial_delay_ms (attempt + 1) remaining'
        (rest.1, delay_ms :: rest.2)

/-- Embedding of `_fetch_with_retry` from utils.py over an attempt
oracle. -/
def fetch_with_retry {β : Type} (attempts : Nat → Option β)
    (max_retries : Nat := 3) (initial_delay_ms : Nat := 1000) : Option β × List Nat :=
  fetchRetryGo attempts initial_delay_ms 0 max_retries

/-! ### `fetch_all_discovery_resources` (utils.py)

The discovery page at a given offset (the fetched URL is
`f"{discovery_url}?limit={page_size}&offset={offset}"`, so the offset
determines the request) is obtained through `_fetch_with_retry`; the
network oracle maps `offset` and retry-attempt number to the outcome.
A successful response carries `resources` (the list extracted from the
JSON) and `pagination.total` (default 0).  The loop accumulates
resources, advances the offset, and records every offset it fetched
(second component of the result) so that the number of page fetches is
observable.  The `time.sleep(0.25)` pacing between pages has no effect on
the returned data and is not modelled.  The `while True` loop is given
fuel; every claim is stated with sufficient fuel. -/

structure DiscoveryPage (α : Type) where
  resources : List α
  total : Nat

/-- Loop body of `fetch_all_discovery_resources`: state is
(fuel, offset, known_total, accumulated resources, fetched offsets). -/
def fetch_all_loop {α : Type} (oracle : Nat → Nat → Option (DiscoveryPage α)) (page_size : Nat) :
    Nat → Nat → Nat → List α → List Nat → List α × List Nat
  | 0, _, _, acc, fetched => (acc, fetched)
  | fuel + 1, offset, known_total, acc, fetched =>
    let fetched' := fetched ++ [offset]
    match (fetch_with_retry (oracle offset)).1 with
    | none =>
      let offset' := offset + page_size
      if 0 < known_total ∧ known_total ≤ offset' then (acc, fetched')
      else if known_total = 0 then (acc, fetched')
      else fetch_all_loop oracle page_size fuel offset' known_total acc fetched'
    | some page =>
      let known_total' := if 0 < page.total then page.total else known_total
      let acc' := acc ++ page.resources
      let offset' := offset + page.resources.length
      if page.resources.length = 0 ∨ known_total' ≤ offset' then (acc', fetched')
      else fetch_all_loop oracle page_size fuel offset' known_total' acc' fetched'

/-- Embedding of `fetch_all_discovery_resources` from utils.py: starts at
offset 0 with `known_total = 0` and no accumulated resources. -/
def fetch_all_discovery_resources {α : Type} (oracle : Nat → Nat → Option (DiscoveryPage α))
    (page_size : Nat := 1000) (fuel : Nat) : List α × List Nat :=
  fetch_all_loop oracle page_size fuel 0 0 [] []

/-- Three-page discovery API of the pagination claim: pages of
1000/1000/250 resources at offsets 0/1000/2000, each reporting
`pagination.total = 2250`; every fetch succeeds on the first attempt. -/
def threePageOracle : Nat → Nat → Option (DiscoveryPage Nat) := fun offset _attempt =>
  if offset = 0 then some { resources := List.replicate 1000 0, total := 2250 }
  else if offset = 1000 then some { resources := List.replicate 1000 1, total := 2250 }
  else if offset = 2000 then some { resources := List.replicate 250 2, total := 2250 }
  else none


/-! ### Networks and USDC identification (constants.py, utils.py) -/

/-- `NETWORK_MAPPINGS` from constants.py: internal network id to the v1
and v2 (CAIP-2) x402 identifiers. -/
def NETWORK_MAPPINGS : List (String × List String) :=
  [("base-mainnet", ["base", "eip155:8453"]),
   ("base-sepolia", ["base-sepolia", "eip155:84532"]),
   ("solana-mainnet", ["solana", "solana:5eykt4UsFv8P8NJdTREpY1vzqKqZKvdp"]),
   ("solana-devnet", ["solana-devnet", "solana:EtWTRABZaYq6iMfeYKouRu166VU2xqa1"])]

/-- `SOLANA_USDC_ADDRESSES` from constants.py. -/
def SOLANA_USDC_ADDRESSES : List (String × String) :=
  [("solana-devnet", "4zMMC9srt5Ri5X14GAgXhaHii3GnPAEERYPJgZJDncDU"),
   ("solana-mainnet", "EPjFWdd5AufqSSqeM2qN1xzybapC8G4wEGGkZwyTDt1v")]

/-- The `Network` collaborator (`wallet_provider.get_network()`):
protocol family (`"evm"`, `"svm"`, ...) and optional network id. -/
structure Network where
  protocol_family : String
  network_id : Option String
  deriving Repr, DecidableEq

/-- The wallet-provider collaborator as the x402 code observes it: its
network and whether it is an `EvmWalletProvider`
(`isinstance(wallet_provider, EvmWalletProvider)`). -/
structure WalletProvider where
  network : Network
  is_evm_provider : Bool
  deriving Repr, DecidableEq

/-- Embedding of `get_x402_networks` from utils.py:
`NETWORK_MAPPINGS.get(network_id, [network_id])`, with `[]` for a missing
or empty network id. -/
def get_x402_networks (network : Network) : List String :=
  match network.network_id with
  | none => []
  | some network_id =>
    if network_id = "" then []
    else (NETWORK_MAPPINGS.lookup network_id).getD [network_id]

/-- The `TOKEN_ADDRESSES_BY_SYMBOLS` table imported from
`..erc20.constants` is not among the sources in scope; spec §4.3 treats
the family-specific address tables as external data.  It is modelled as a
parameter mapping network id and token symbol to an optional contract
address (`TOKEN_ADDRESSES_BY_SYMBOLS.get(network_id, \x7b\x7d).get(symbol)`). -/
def TokenTable : Type := String → String → Option String

/-- Python `str.lower()` as used on hex addresses: character-wise ASCII
lower-casing. -/
def lowerString (s : String) : String :=
  String.mk (s.toList.map Char.toLower)

/-- Embedding of `is_usdc_asset` from utils.py.  On an EVM network with an
`EvmWalletProvider`, the asset address is compared case-insensitively to
the table's USDC address when one is present (Python falls through when
the lookup is falsy); on an SVM network it is compared exactly to the
Solana USDC mint address. -/
def is_usdc_asset (tbl : TokenTable) (asset : String) (wallet_provider : WalletProvider) : Bool :=
  let wallet_network := wallet_provider.network
  let is_evm_network := wallet_network.protocol_family = "evm"
  let is_svm_network := wallet_network.protocol_family = "svm"
  let evm_result : Option Bool :=
    if is_evm_network ∧ wallet_provider.is_evm_provider then
      match wallet_network.network_id with
      | none => none
      | some network_id =>
        match tbl network_id "USDC" with
        | some usdc_address =>
          if usdc_address = "" then none
          else some (lowerString asset == lowerString usdc_address)
        | none => none
    else none
  match evm_result with
  | some b => b
  | none =>
    if is_svm_network then
      match (match wallet_network.network_id with
             | none => none
             | some network_id => SOLANA_USDC_ADDRESSES.lookup network_id) with
      | some usdc_address =>
        if usdc_address = "" then false else asset == usdc_address
      | none => false
    else false

/-- A payment option as it appears in a 402 response's `accepts` array: a
JSON object with optional keys (wire dict, both v1 and v2 spellings). -/
structure AcceptsOption where
  scheme : Option String := none
  network : Option String := none
  asset : Option String := none
  max_amount_required : Option String := none
  maxAmountRequired : Option String := none
  amount : Option String := none
  price : Option String := none
  description : Option String := none
  deriving Repr, DecidableEq

/-- Embedding of `filter_usdc_payment_options` from utils.py:
`opt.get("asset", "")` is tested with `is_usdc_asset`. -/
def filter_usdc_payment_options (tbl : TokenTable) (accepts : List AcceptsOption)
    (wallet_provider : WalletProvider) : List AcceptsOption :=
  accepts.filter fun opt => is_usdc_asset tbl (opt.asset.getD "") wallet_provider

/-! ### HTTP layer model (x402_action_provider.py)

Python truthiness on `str | None` (`a or b`), the URL builder, the
response object as the provider observes it, and the JSON result payloads
of the actions.  Requests actually issued are recorded so that claims
about which requests happen (verb-swap retry, "no signing before the
guards") are expressible. -/

/-- Python `a or b` for `a b : str | None`: `a` unless it is `None` or
the empty string. -/
def pyOr (a b : Option String) : Option String :=
  match a with
  | some s => if s = "" then b else some s
  | none => b

/-- Python `a or d` with a (truthy) string default `d`. -/
def pyOrDefault (a : Option String) (d : String) : String :=
  match a with
  | some s => if s = "" then d else s
  | none => d

/-- `urllib.parse.urlencode` on string pairs, joined `k=v` with `&`
(percent-escaping is not modelled; no claim depends on it). -/
def urlencode (query_params : List (String × String)) : String :=
  String.intercalate "&" (query_params.map fun kv => kv.1 ++ "=" ++ kv.2)

/-- Embedding of `build_url_with_params` from utils.py. -/
def build_url_with_params (base_url : String)
    (query_params : Option (List (String × String))) : String :=
  match query_params with
  | none => base_url
  | some ps =>
    if ps.isEmpty then base_url
    else
      let separator := if base_url.contains '?' then "&" else "?"
      base_url ++ separator ++ urlencode ps

/-- Decoded x402 payment requirements (`payment_data`): the JSON object
from the base64 `payment-required` header (v2) or the response body (v1).
`accepts` defaults to the empty list (`payment_data.get("accepts", [])`). -/
structure PaymentRequirements where
  accepts : List AcceptsOption := []
  description : Option String := none
  mimeType : Option String := none
  extensions : Option String := none
  deriving Repr, DecidableEq

/-- The settlement-proof header as observed: its raw value and, when
base64/JSON decoding succeeds, the decoded JSON (opaque string). -/
structure PaymentProofHeader where
  raw : String
  decoded : Option String
  deriving Repr, DecidableEq

/-- The payment proof included in a result payload: either the decoded
JSON or, when decoding fails, the raw header wrapped as \x7b"raw": header\x7d. -/
inductive PaymentProof where
  | parsed (json : String)
  | raw (header : String)
  deriving Repr, DecidableEq

/-- An HTTP response as the provider observes it.
`payment_required_header`: `none` = header absent, `some none` = present
but base64/JSON decoding raises, `some (some d)` = decodes to `d`.
`body_json`: `none` models `response.json()` raising.
`payment_response_header` is the value of the `payment-response` (v2) or
`x-payment-response` (v1) header, whichever `or` selects.
`data` is the `_parse_response_data(response)` result, kept opaque. -/
structure HttpResponse where
  status_code : Nat
  payment_required_header : Option (Option PaymentRequirements) := none
  body_json : Option PaymentRequirements := none
  payment_response_header : Option PaymentProofHeader := none
  data : String := ""
  deriving Repr, DecidableEq

/-- The payment summary (`paymentUsed`) of a successful paid retry. -/
structure PaymentUsed where
  network : String
  asset : String
  amount : Option String
  deriving Repr, DecidableEq

/-- The `discoveryInfo` block of the 402 result of `make_http_request`. -/
structure DiscoveryInfo where
  description : Option String := none
  mimeType : Option String := none
  extensions : Option String := none
  deriving Repr, DecidableEq

/-- A JSON result payload of the x402 actions, with one optional field
per JSON key that some branch emits.  The JSON key "status" carries a
string in some payloads and the numeric HTTP code in others; the two are
split into `status` and `http_status` (the latter also models the
"httpStatus" key of the failed-retry payload).  The nested "details"
object of the retry payloads is flattened into `url`/`method`/
`paymentUsed`/`paymentProof`; the advisory "nextSteps" strings for the
LLM and the stringified exception inside `handle_http_error` are not
modelled. -/
structure ResultPayload where
  error : Option Bool := none
  success : Option Bool := none
  status : Option String := none
  http_status : Option Nat := none
  message : Option String := none
  details : Option String := none
  url : Option String := none
  method : Option String := none
  data : Option String := none
  registeredServices : Option (List String) := none
  suggestion : Option String := none
  originalOptions : Option (List AcceptsOption) := none
  acceptablePaymentOptions : Option (List AcceptsOption) := none
  discoveryInfo : Option DiscoveryInfo := none
  paymentUsed : Option PaymentUsed := none
  paymentProof : Option PaymentProof := none
  maxPaymentUsdc : Option Nat := none
  deriving Repr, DecidableEq

/-- The generic branch of `handle_http_error` from utils.py (the errors
reachable in the model carry no `response`/`request` attribute). -/
def handle_http_error_payload (url : String) : ResultPayload :=
  { error := some true
    message := some ("Error making request to " ++ url)
    suggestion := some "Please check the request parameters and try again." }

/-- A request the provider hands to the HTTP library: final URL, method,
and the JSON body passed (`None` unless the method may carry a body). -/
structure IssuedRequest where
  url : String
  method : String
  json_body : Option String
  deriving Repr, DecidableEq

/-- Extraction of the payment proof from the response headers, as done
identically in `retry_with_x402` and `make_http_request_with_x402`. -/
def extract_payment_proof (resp : HttpResponse) : Option PaymentProof :=
  match resp.payment_response_header with
  | none => none
  | some h =>
    match h.decoded with
    | some j => some (.parsed j)
    | none => some (.raw h.raw)

/-! ### `make_http_request` (x402_action_provider.py)

The network is an oracle indexed by the call number (0 = first request,
1 = the 404 verb-swap retry).  The result pairs the returned payload with
the list of requests actually issued. -/

/-- Arguments of `make_http_request` / `make_http_request_with_x402`
(`HttpRequestSchema` / `DirectX402RequestSchema` as a dict; headers do
not influence any modelled behavior and are omitted). -/
structure HttpRequestArgs where
  url : String
  method : Option String := none
  query_params : Option (List (String × String)) := none
  body : Option String := none
  deriving Repr, DecidableEq

/-- Python truthiness filter on an optional string field
(`if payment_data.get(key):`). -/
def truthyOpt (a : Option String) : Option String :=
  match a with
  | some s => if s = "" then none else some s
  | none => none

/-- Extraction of the accepts array and `payment_data` from a 402
response, as `make_http_request` does it: the base64 `payment-required`
header takes precedence when it decodes to a non-empty `accepts`;
otherwise the response body is parsed (`none` models `response.json()`
raising, which the outer handler turns into an error payload). -/
def extract_payment_requirements (response : HttpResponse) :
    Option (List AcceptsOption × PaymentRequirements) :=
  let headerStep : List AcceptsOption × PaymentRequirements :=
    match response.payment_required_header with
    | some (some decoded) => (decoded.accepts, decoded)
    | _ => ([], {})
  if headerStep.1.isEmpty then
    match response.body_json with
    | none => none
    | some payment_data => some (payment_data.accepts, payment_data)
  else some headerStep

/-- Embedding of `make_http_request` from x402_action_provider.py.  The
payload is computed alongside the list of issued requests; every branch
past the allow-list gate returns the same issued list. -/
def make_http_request (registered_services : List String) (tbl : TokenTable)
    (wallet_provider : WalletProvider) (args : HttpRequestArgs)
    (http : Nat → HttpResponse) : ResultPayload × List IssuedRequest :=
  let url := args.url
  if ¬ is_url_allowed url registered_services then
    ({ error := some true
       message := some "Service not registered"
       details := some ("The service URL \"" ++ url ++
         "\" is not registered. Only approved services can be called.")
       registeredServices := some registered_services }, [])
  else
    let final_url := build_url_with_params url args.query_params
    let method₀ := pyOrDefault args.method "GET"
    let can_have_body₀ := method₀ ∈ ["POST", "PUT", "PATCH"]
    let req₀ : IssuedRequest :=
      { url := final_url, method := method₀
        json_body := if can_have_body₀ then args.body else none }
    let resp₀ := http 0
    let step :=
      if resp₀.status_code = 404 then
        let method₁ := if method₀ = "GET" then "POST" else "GET"
        let can_have_body₁ := method₁ ∈ ["POST", "PUT", "PATCH"]
        let req₁ : IssuedRequest :=
          { url := final_url, method := method₁
            json_body := if can_have_body₁ then args.body else none }
        (method₁, http 1, [req₀, req₁])
      else (method₀, resp₀, [req₀])
    let method := step.1
    let response := step.2.1
    let issued := step.2.2
    let payload : ResultPayload :=
      if response.status_code ≠ 402 then
        { success := some true, url := some final_url, method := some method
          http_status := some response.status_code, data := some response.data }
      else
        match extract_payment_requirements response with
        | none => handle_http_error_payload url
        | some (accepts_array, payment_data) =>
          let usdc_options := filter_usdc_payment_options tbl accepts_array wallet_provider
          if usdc_options.isEmpty then
            { error := some true
              message := some "No USDC payment option available"
              details := some
                "This service does not accept USDC payments. Only USDC payments are supported."
              originalOptions := some accepts_array }
          else
            let discovery_info : DiscoveryInfo :=
              { description := truthyOpt payment_data.description
                mimeType := truthyOpt payment_data.mimeType
                extensions := truthyOpt payment_data.extensions }
            { status := some "error_402_payment_required"
              acceptablePaymentOptions := some usdc_options
              discoveryInfo :=
                if discovery_info = ({} : DiscoveryInfo) then none else some discovery_info }
    (payload, issued)

/-! ### `retry_with_x402` (x402_action_provider.py)

The `x402_requests(client).request(...)` call — creating the signer and
sending the signed request — is the paying step; the oracle `resp` is
the final response it observes.  The boolean of the result records
whether that step was reached. -/

/-- `PaymentOptionSchema` from schemas.py (pydantic model):
`scheme`, `network`, `asset` are required strings, the amount fields are
optional. -/
structure PaymentOptionSchema where
  scheme : String
  network : String
  asset : String
  max_amount_required : Option String := none
  amount : Option String := none
  price : Option String := none
  pay_to : Option String := none
  deriving Repr, DecidableEq

/-- Arguments of `retry_with_x402` (`RetryWithX402Schema`). -/
structure RetryArgs where
  url : String
  method : Option String := none
  query_params : Option (List (String × String)) := none
  body : Option String := none
  selected_payment_option : PaymentOptionSchema
  deriving Repr, DecidableEq

/-- Embedding of `retry_with_x402` from x402_action_provider.py. -/
def retry_with_x402 (registered_services : List String) (tbl : TokenTable)
    (max_payment_usdc : Nat) (wallet_provider : WalletProvider) (args : RetryArgs)
    (resp : HttpResponse) : ResultPayload × Bool :=
  let url := args.url
  if ¬ is_url_allowed url registered_services then
    ({ error := some true
       message := some "Service not registered"
       details := some ("The service URL \"" ++ url ++
         "\" is not registered. Only pre-registered services can be called.")
       registeredServices := some registered_services }, false)
  else
    let selected := args.selected_payment_option
    let asset := pyOrDefault (some selected.asset) ""
    if ¬ is_usdc_asset tbl asset wallet_provider then
      ({ error := some true
         message := some "Only USDC payments are supported"
         details := some ("The selected payment asset \"" ++ asset ++ "\" is not USDC.") },
       false)
    else
      let payment_amount :=
        pyOrDefault (pyOr selected.max_amount_required (pyOr selected.amount selected.price)) "0"
      match validate_payment_limit payment_amount max_payment_usdc with
      | none => (handle_http_error_payload url, false)
      | some payment_validation =>
        if ¬ payment_validation.is_valid then
          ({ error := some true
             message := some "Payment exceeds limit"
             details := some ("The requested payment of " ++
               payment_validation.requested_amount ++
               " USDC exceeds the maximum spending limit of " ++
               payment_validation.max_amount ++ " USDC.")
             maxPaymentUsdc := some max_payment_usdc }, false)
        else
          let wallet_networks := get_x402_networks wallet_provider.network
          let selected_network := pyOrDefault (some selected.network) ""
          if selected_network ∉ wallet_networks then
            ({ error := some true
               message := some "Network mismatch"
               details := some ("Wallet is on " ++ String.intercalate ", " wallet_networks ++
                 " but payment requires " ++ selected_network) }, false)
          else if ¬ wallet_provider.is_evm_provider then
            ({ error := some true
               message := some "Unsupported wallet provider"
               details := some "Only EvmWalletProvider is currently supported for x402 payments" },
             false)
          else
            let final_url := build_url_with_params url args.query_params
            let method := pyOrDefault args.method "GET"
            let payment_proof := extract_payment_proof resp
            let amount_used :=
              pyOr selected.max_amount_required (pyOr selected.amount selected.price)
            if resp.status_code ≠ 200 then
              ({ status := some "error"
                 message := some ("Request failed with status " ++
                   toString resp.status_code ++ ". Payment was not settled.")
                 http_status := some resp.status_code
                 data := some resp.data
                 url := some final_url
                 method := some method }, true)
            else
              ({ status := some "success"
                 data := some resp.data
                 message := some "Request completed successfully with payment"
                 url := some final_url
                 method := some method
                 paymentUsed := some
                   { network := selected.network, asset := selected.asset
                     amount := amount_used }
                 paymentProof := payment_proof }, true)

/-- Embedding of `make_http_request_with_x402` from
x402_action_provider.py: allow-list check, wallet-provider check, then
the automatic-payment request; the boolean records whether the request
was sent. -/
def make_http_request_with_x402 (registered_services : List String)
    (wallet_provider : WalletProvider) (args : HttpRequestArgs)
    (resp : HttpResponse) : ResultPayload × Bool :=
  let url := args.url
  if ¬ is_url_allowed url registered_services then
    ({ error := some true
       message := some "Service not registered"
       details := some ("The service URL \"" ++ url ++
         "\" is not registered. Only pre-registered services can be called.")
       registeredServices := some registered_services }, false)
  else if ¬ wallet_provider.is_evm_provider then
    ({ error := some true
       message := some "Unsupported wallet provider"
       details := some "Only EvmWalletProvider is currently supported for x402 payments" },
     false)
  else
    let final_url := build_url_with_params url args.query_params
    let method := pyOrDefault args.method "GET"
    let payment_proof := extract_payment_proof resp
    if resp.status_code ≠ 200 then
      ({ success := some false
         message := some ("Request failed with status " ++
           toString resp.status_code ++ ". Payment was not settled.")
         url := some final_url
         method := some method
         http_status := some resp.status_code
         data := some resp.data }, true)
    else
      ({ success := some true
         message := some "Request completed successfully (payment handled automatically if required)"
         url := some final_url
         method := some method
         http_status := some resp.status_code
         data := some resp.data
         paymentProof := payment_proof }, true)

/-! ## Theorems -/

/-- Associativity of string concatenation, used to exhibit substrings of
result messages. -/
theorem string_append_assoc (a b c : String) : a ++ b ++ c = a ++ (b ++ c) :=
  String.append_assoc a b c

/-- Claim C1: for every payment amount given in atomic units and every
configured ceiling in whole USDC units, `validate_payment_limit` returns
`is_valid` true exactly when `amount_atomic ≤ max_usdc_whole * 10^6`
(USDC assumed 6 decimals), and it never alters the requested amount: the
result only reports validity together with the exact decimal rendering of
the requested amount and of the ceiling. -/
theorem validate_payment_limit_is_valid_iff (s : String) (amount max_usdc : Nat)
    (hparse : pyInt s = some amount) :
    ∃ result, validate_payment_limit s max_usdc = some result ∧
      (result.is_valid = true ↔ amount ≤ max_usdc * 10 ^ 6) ∧
      result.requested_amount = format_units amount 6 ∧
      result.max_amount = toString max_usdc := by
  refine ⟨{ is_valid := decide (amount ≤ max_usdc * 10 ^ 6)
            requested_amount := format_units amount 6
            max_amount := toString max_usdc }, ?_, by simp, rfl, rfl⟩
  simp [validate_payment_limit, hparse]

/-- Witness for claim C1: amount 500000 atomic units against a 1-USDC
ceiling. -/
theorem validate_payment_limit_is_valid_iff_witness :
    ∃ result, validate_payment_limit "500000" 1 = some result ∧
      (result.is_valid = true ↔ 500000 ≤ 1 * 10 ^ 6) ∧
      result.requested_amount = format_units 500000 6 ∧
      result.max_amount = toString 1 :=
  validate_payment_limit_is_valid_iff "500000" 500000 1 (by decide)

/-- Claim C9: `validate_payment_limit` is monotonic in the ceiling — for a
fixed atomic amount, if the amount is valid under ceiling `m₁ ≤ m₂` then
it is valid under `m₂`. -/
theorem validate_payment_limit_monotone (s : String) (m₁ m₂ : Nat) (hm : m₁ ≤ m₂)
    (hvalid : (validate_payment_limit s m₁).map (fun r => r.is_valid) = some true) :
    (validate_payment_limit s m₂).map (fun r => r.is_valid) = some true := by
  cases hs : pyInt s with
  | none => simp [validate_payment_limit, hs] at hvalid
  | some a =>
    simp [validate_payment_limit, hs] at hvalid ⊢
    exact le_trans hvalid (Nat.mul_le_mul hm (le_refl _))

/-- Witness for claim C9: amount 500000 atomic units, ceilings 1 and 2. -/
theorem validate_payment_limit_monotone_witness :
    (validate_payment_limit "500000" 2).map (fun r => r.is_valid) = some true :=
  validate_payment_limit_monotone "500000" 1 2 (by decide) (by decide)

/-- Claim C7: `is_service_registered` returns true exactly when the URL's
parsed origin (scheme://netloc) equals some registered entry or the URL
string starts with some registered entry; in particular the two
spec examples hold. -/
theorem is_service_registered_iff :
    (∀ url regs parsed, urlparse url = some parsed →
      (is_service_registered url regs = true ↔
        ∃ r ∈ regs, urlOrigin parsed = r ∨ url.startsWith r = true)) ∧
    is_service_registered "https://api.example.com/v1/x" ["https://api.example.com"] = true ∧
    is_service_registered "https://evil.com" ["https://api.example.com"] = false := by
  refine ⟨?_, by decide, by decide⟩
  intro url regs parsed hp
  by_cases hempty : regs.isEmpty
  · rw [List.isEmpty_iff] at hempty
    subst hempty
    simp [is_service_registered]
  · simp [is_service_registered, hempty, hp, List.any_eq_true]

/-- Witness for claim C7: the characterization evaluated at the
spec's positive example. -/
theorem is_service_registered_iff_witness :
    is_service_registered "https://api.example.com/v1/x" ["https://api.example.com"] = true ↔
      ∃ r ∈ ["https://api.example.com"],
        urlOrigin { scheme := "https", netloc := "api.example.com" } = r ∨
          ("https://api.example.com/v1/x").startsWith r = true :=
  is_service_registered_iff.1 _ _ _ (by decide)

/-- Claim C10: the allow-list gate is fail-closed — `is_service_registered`
is false for every URL when the registry is empty, and false whenever URL
parsing fails (the function is total, so it always returns a boolean). -/
theorem is_service_registered_fail_closed :
    (∀ url, is_service_registered url [] = false) ∧
    (∀ url regs, urlparse url = none → is_service_registered url regs = false) := by
  constructor
  · intro url
    simp [is_service_registered]
  · intro url regs hp
    by_cases hempty : regs.isEmpty <;> simp [is_service_registered, hempty, hp]

/-- Witness for claim C10: empty registry, and a URL whose parse fails
(unmatched bracket) even though a registered entry is a string prefix of
it. -/
theorem is_service_registered_fail_closed_witness :
    is_service_registered "https://evil.example/a" [] = false ∧
    is_service_registered "https://[abc" ["https://["] = false :=
  ⟨is_service_registered_fail_closed.1 _,
    is_service_registered_fail_closed.2 "https://[abc" ["https://["] (by decide)⟩

set_option maxRecDepth 40000 in
/-- Claim C5: against a discovery API answering three successful pages of
1000, 1000 and 250 resources, each reporting `pagination.total = 2250`,
`fetch_all_discovery_resources` with page size 1000 returns exactly 2250
resources and fetches exactly the pages at offsets 0, 1000 and 2000 — it
stops after the third page, however much fuel remains. -/
theorem fetch_all_three_pages_stops (k : Nat) :
    (fetch_all_discovery_resources threePageOracle 1000 (k + 3)).1.length = 2250 ∧
    (fetch_all_discovery_resources threePageOracle 1000 (k + 3)).2 = [0, 1000, 2000] := by
  have h : fetch_all_discovery_resources threePageOracle 1000 (k + 3) =
      (List.replicate 1000 0 ++ (List.replicate 1000 1 ++ List.replicate 250 2),
        [0, 1000, 2000]) := by
    simp [fetch_all_discovery_resources, fetch_all_loop, fetch_with_retry, fetchRetryGo,
      threePageOracle]
  rw [h]
  simp

/-- Claim C6: a failing page fetch is retried up to 3 times with
exponential backoff (delays 1000, 2000, 4000 ms before the 2nd, 3rd and
4th attempts; success at attempt `k` sleeps exactly the first `k`
delays); when all four attempts fail the page is skipped by advancing the
offset by `page_size` and the loop continues — except that it stops,
returning the resources already collected, when the advanced offset
reaches the last known total, and aborts immediately when no page has
ever succeeded (`known_total` still 0). -/
theorem fetch_retry_backoff_and_page_skip {α : Type} :
    (∀ (attempts : Nat → Option (DiscoveryPage α)),
      (∀ k r, k ≤ 3 → (∀ j, j < k → attempts j = none) → attempts k = some r →
        fetch_with_retry attempts = (some r, (List.range k).map fun j => 1000 * 2 ^ j)) ∧
      ((∀ j, j ≤ 3 → attempts j = none) →
        fetch_with_retry attempts = (none, [1000, 2000, 4000]))) ∧
    (∀ (oracle : Nat → Nat → Option (DiscoveryPage α))
        (page_size fuel offset known_total : Nat) (acc : List α) (fetched : List Nat),
      (fetch_with_retry (oracle offset)).1 = none →
      fetch_all_loop oracle page_size (fuel + 1) offset known_total acc fetched =
        if 0 < known_total ∧ known_total ≤ offset + page_size then (acc, fetched ++ [offset])
        else if known_total = 0 then (acc, fetched ++ [offset])
        else fetch_all_loop oracle page_size fuel (offset + page_size) known_total acc
          (fetched ++ [offset])) := by
  constructor
  · intro attempts
    constructor
    · intro k r hk hmin hksome
      interval_cases k
      · simp [fetch_with_retry, fetchRetryGo, hksome]
      · have h0 := hmin 0 (by omega)
        simp [fetch_with_retry, fetchRetryGo, h0, hksome, List.range_succ]
      · have h0 := hmin 0 (by omega)
        have h1 := hmin 1 (by omega)
        simp [fetch_with_retry, fetchRetryGo, h0, h1, hksome, List.range_succ]
      · have h0 := hmin 0 (by omega)
        have h1 := hmin 1 (by omega)
        have h2 := hmin 2 (by omega)
        simp [fetch_with_retry, fetchRetryGo, h0, h1, h2, hksome, List.range_succ]
    · intro hall
      have h0 := hall 0 (by omega)
      have h1 := hall 1 (by omega)
      have h2 := hall 2 (by omega)
      have h3 := hall 3 (by omega)
      simp [fetch_with_retry, fetchRetryGo, h0, h1, h2, h3]
  · intro oracle page_size fuel offset known_total acc fetched hfail
    simp only [fetch_all_loop, hfail]

/-- Witness for claim C6: an always-failing network — four attempts, then
the page at offset 0 is skipped and, the advanced offset 1000 having
passed the known total 5, the loop stops returning the previously
collected resource. -/
theorem fetch_retry_backoff_and_page_skip_witness :
    fetch_with_retry (fun _ => (none : Option (DiscoveryPage Nat))) =
      (none, [1000, 2000, 4000]) ∧
    fetch_all_loop (fun _ _ => (none : Option (DiscoveryPage Nat))) 1000 1 0 5 [7] [] =
      ([7], [0]) := by
  constructor
  · exact (fetch_retry_backoff_and_page_skip.1 _).2 fun j _ => rfl
  · rw [fetch_retry_backoff_and_page_skip.2 (fun _ _ => none) 1000 0 0 5 [7] [] rfl]
    norm_num

/-! ### Concrete fixtures used by witnesses and counterexamples -/

/-- A token table with no entries. -/
def noTokens : TokenTable := fun _ _ => none

/-- A token table knowing only USDC on Base mainnet (the external
`TOKEN_ADDRESSES_BY_SYMBOLS` data, instantiated for witnesses). -/
def baseUsdcTable : TokenTable := fun network_id symbol =>
  if network_id = "base-mainnet" ∧ symbol = "USDC" then
    some "0x833589fCD6eDb6E08f4c7C32D4f71b54bdA02913"
  else none

/-- An EVM wallet provider on Base mainnet. -/
def baseWallet : WalletProvider :=
  { network := { protocol_family := "evm", network_id := some "base-mainnet" }
    is_evm_provider := true }

/-- An HTTP oracle answering 404 to the first request and 200 to the
retry. -/
def first404Oracle : Nat → HttpResponse := fun k =>
  if k = 0 then { status_code := 404 } else { status_code := 200 }

/-- Claim C4 counterexample: a PUT request — a body-carrying method
outside GET/POST, which the claim exempts from the verb swap — whose
first response is 404 is nevertheless retried, with method GET: two
requests are issued, not one. -/
theorem verb_swap_hits_put_counterexample :
    (make_http_request ["https://api.example.com"] noTokens baseWallet
      { url := "https://api.example.com/item", method := some "PUT" }
      first404Oracle).2 =
    [{ url := "https://api.example.com/item", method := "PUT", json_body := none },
     { url := "https://api.example.com/item", method := "GET", json_body := none }] := by
  decide

/-- Claim C4 (amended): the single verb-swap retry of `make_http_request`
happens exactly when the first response status is 404, for every method:
the retry uses POST when the method was GET and GET for every other
method (POST, PUT, PATCH, DELETE included); on any other first status no
second request is issued. -/
theorem verb_swap_on_404 (regs : List String) (tbl : TokenTable)
    (wp : WalletProvider) (args : HttpRequestArgs) (http : Nat → HttpResponse)
    (hallow : is_url_allowed args.url regs = true) :
    (make_http_request regs tbl wp args http).2 =
      (let final_url := build_url_with_params args.url args.query_params
       let method := pyOrDefault args.method "GET"
       let req₀ : IssuedRequest :=
         { url := final_url, method := method
           json_body := if method ∈ ["POST", "PUT", "PATCH"] then args.body else none }
       if (http 0).status_code = 404 then
         let method₁ := if method = "GET" then "POST" else "GET"
         [req₀,
          { url := final_url, method := method₁
            json_body := if method₁ ∈ ["POST", "PUT", "PATCH"] then args.body else none }]
       else [req₀]) := by
  simp only [make_http_request, hallow]
  split
  next h => exact absurd trivial h
  next => split <;> simp_all

/-- Witness for the amended claim C4: a GET receiving 404 is retried once
as POST. -/
theorem verb_swap_on_404_witness :
    (make_http_request ["https://api.example.com"] noTokens baseWallet
      { url := "https://api.example.com/item", method := some "GET" }
      first404Oracle).2 =
    [{ url := "https://api.example.com/item", method := "GET", json_body := none },
     { url := "https://api.example.com/item", method := "POST", json_body := none }] := by
  rw [verb_swap_on_404 _ _ _ _ _ (by decide)]
  decide

/-- Claim C8: a 402 response whose payment options filter to no USDC
option makes `make_http_request` return the terminal rejection payload —
an error whose message contains "No USDC payment option" — and the
negotiation ends there (the two-step flow never attempts a payment in
`make_http_request`; the payload offers no acceptable options and the
issued requests are only the pre-payment ones). -/
theorem no_usdc_option_rejected (regs : List String) (tbl : TokenTable)
    (wp : WalletProvider) (args : HttpRequestArgs) (http : Nat → HttpResponse)
    (accepts : List AcceptsOption) (payment_data : PaymentRequirements)
    (hallow : is_url_allowed args.url regs = true)
    (hstatus : (http 0).status_code = 402)
    (hreq : extract_payment_requirements (http 0) = some (accepts, payment_data))
    (hfilter : filter_usdc_payment_options tbl accepts wp = []) :
    (make_http_request regs tbl wp args http).1 =
      { error := some true
        message := some "No USDC payment option available"
        details := some
          "This service does not accept USDC payments. Only USDC payments are supported."
        originalOptions := some accepts } ∧
    ∃ pre post, (make_http_request regs tbl wp args http).1.message =
      some (pre ++ "No USDC payment option" ++ post) := by
  have h : (make_http_request regs tbl wp args http).1 =
      { error := some true
        message := some "No USDC payment option available"
        details := some
          "This service does not accept USDC payments. Only USDC payments are supported."
        originalOptions := some accepts } := by
    simp [make_http_request, hallow, hstatus, hreq, hfilter]
  refine ⟨h, "", " available", ?_⟩
  rw [h]
  show some "No USDC payment option available" =
    some ("" ++ "No USDC payment option" ++ " available")
  decide

/-- A non-USDC payment option (arbitrary asset on Base). -/
def nonUsdcOption : AcceptsOption :=
  { network := some "base", asset := some "0x1111", maxAmountRequired := some "100" }

/-- A 402 response whose body carries one non-USDC option. -/
def resp402NonUsdc : HttpResponse :=
  { status_code := 402, body_json := some { accepts := [nonUsdcOption] } }

/-- Witness for claim C8: a registered URL, a 402 response offering only
a non-USDC asset, and an empty token table. -/
theorem no_usdc_option_rejected_witness :
    (make_http_request ["https://api.example.com"] noTokens baseWallet
      { url := "https://api.example.com/item" } (fun _ => resp402NonUsdc)).1 =
      { error := some true
        message := some "No USDC payment option available"
        details := some
          "This service does not accept USDC payments. Only USDC payments are supported."
        originalOptions := some [nonUsdcOption] } ∧
    ∃ pre post,
      (make_http_request ["https://api.example.com"] noTokens baseWallet
        { url := "https://api.example.com/item" } (fun _ => resp402NonUsdc)).1.message =
        some (pre ++ "No USDC payment option" ++ post) :=
  no_usdc_option_rejected _ _ _ _ _ [nonUsdcOption] { accepts := [nonUsdcOption] }
    (by decide) (by decide) (by decide) (by decide)

/-- Claim C2: in the payment-retry flow, with the guards passing (the
claim's "after selecting a matching USDC option"), the result of
`retry_with_x402` reports status "success" exactly when the final
response status is 200; any other status yields a payload whose message
ends in "Payment was not settled." (whatever proof header is present, the
response being universally quantified); on 200 the payload carries the
non-null payment summary (network, asset, amount).  The same 200
criterion governs `make_http_request_with_x402`'s success flag and
not-settled message. -/
theorem settlement_only_on_200 (regs : List String) (tbl : TokenTable) (max_usdc : Nat)
    (wp : WalletProvider) (rargs : RetryArgs) (dargs : HttpRequestArgs)
    (resp dresp : HttpResponse)
    (h1 : is_url_allowed rargs.url regs = true)
    (h2 : is_usdc_asset tbl (pyOrDefault (some rargs.selected_payment_option.asset) "") wp =
      true)
    (h3 : ∃ v, validate_payment_limit
        (pyOrDefault (pyOr rargs.selected_payment_option.max_amount_required
          (pyOr rargs.selected_payment_option.amount rargs.selected_payment_option.price))
          "0") max_usdc = some v ∧ v.is_valid = true)
    (h4 : pyOrDefault (some rargs.selected_payment_option.network) "" ∈
      get_x402_networks wp.network)
    (h5 : wp.is_evm_provider = true)
    (h6 : is_url_allowed dargs.url regs = true) :
    ((retry_with_x402 regs tbl max_usdc wp rargs resp).1.status = some "success" ↔
      resp.status_code = 200) ∧
    (resp.status_code ≠ 200 →
      ∃ pre, (retry_with_x402 regs tbl max_usdc wp rargs resp).1.message =
        some (pre ++ "Payment was not settled.")) ∧
    (resp.status_code = 200 →
      (retry_with_x402 regs tbl max_usdc wp rargs resp).1.paymentUsed =
        some { network := rargs.selected_payment_option.network
               asset := rargs.selected_payment_option.asset
               amount := pyOr rargs.selected_payment_option.max_amount_required
                 (pyOr rargs.selected_payment_option.amount
                   rargs.selected_payment_option.price) }) ∧
    ((make_http_request_with_x402 regs wp dargs dresp).1.success = some true ↔
      dresp.status_code = 200) ∧
    (dresp.status_code ≠ 200 →
      ∃ pre, (make_http_request_with_x402 regs wp dargs dresp).1.message =
        some (pre ++ "Payment was not settled.")) := by
  obtain ⟨v, hv, hvalid⟩ := h3
  have hdirect :
      make_http_request_with_x402 regs wp dargs dresp =
        (if dresp.status_code = 200 then
          { success := some true
            message := some
              "Request completed successfully (payment handled automatically if required)"
            url := some (build_url_with_params dargs.url dargs.query_params)
            method := some (pyOrDefault dargs.method "GET")
            http_status := some dresp.status_code
            data := some dresp.data
            paymentProof := extract_payment_proof dresp }
        else
          { success := some false
            message := some ("Request failed with status " ++
              toString dresp.status_code ++ ". Payment was not settled.")
            url := some (build_url_with_params dargs.url dargs.query_params)
            method := some (pyOrDefault dargs.method "GET")
            http_status := some dresp.status_code
            data := some dresp.data }, true) := by
    simp only [make_http_request_with_x402, h6, h5]
    norm_num
    split <;> rfl
  have hretry :
      retry_with_x402 regs tbl max_usdc wp rargs resp =
        (if resp.status_code = 200 then
          { status := some "success"
            data := some resp.data
            message := some "Request completed successfully with payment"
            url := some (build_url_with_params rargs.url rargs.query_params)
            method := some (pyOrDefault rargs.method "GET")
            paymentUsed := some
              { network := rargs.selected_payment_option.network
                asset := rargs.selected_payment_option.asset
                amount := pyOr rargs.selected_payment_option.max_amount_required
                  (pyOr rargs.selected_payment_option.amount
                    rargs.selected_payment_option.price) }
            paymentProof := extract_payment_proof resp }
        else
          { status := some "error"
            message := some ("Request failed with status " ++
              toString resp.status_code ++ ". Payment was not settled.")
            http_status := some resp.status_code
            data := some resp.data
            url := some (build_url_with_params rargs.url rargs.query_params)
            method := some (pyOrDefault rargs.method "GET") }, true) := by
    simp only [retry_with_x402, h1, h2, hv, hvalid, h4, h5]
    norm_num
    split <;> rfl
  refine ⟨?_, ?_, ?_, ?_, ?_⟩
  · by_cases hs : resp.status_code = 200 <;> simp [hretry, hs]
  · intro hs
    refine ⟨"Request failed with status " ++ toString resp.status_code ++ ". ", ?_⟩
    rw [hretry]
    simp only [if_neg hs]
    show some _ = _
    congr 1
    conv_rhs => rw [string_append_assoc]
    congr 1
  · intro hs
    simp [hretry, hs]
  · by_cases hs : dresp.status_code = 200 <;> simp [hdirect, hs]
  · intro hs
    refine ⟨"Request failed with status " ++ toString dresp.status_code ++ ". ", ?_⟩
    rw [hdirect]
    simp only [if_neg hs]
    show some _ = _
    congr 1
    conv_rhs => rw [string_append_assoc]
    congr 1

/-- The USDC-on-Base payment option of the witnesses, in v1 format. -/
def usdcOptionFixture : PaymentOptionSchema :=
  { scheme := "exact", network := "base"
    asset := "0x833589fCD6eDb6E08f4c7C32D4f71b54bdA02913"
    max_amount_required := some "10000" }

/-- Retry arguments selecting the USDC-on-Base option. -/
def retryArgsFixture : RetryArgs :=
  { url := "https://api.example.com/item", selected_payment_option := usdcOptionFixture }

/-- Witness for claim C2: registered URL, matching USDC option within the
1-USDC limit, settlement response 200 in both flows. -/
theorem settlement_only_on_200_witness :
    ((retry_with_x402 ["https://api.example.com"] baseUsdcTable 1 baseWallet
        retryArgsFixture { status_code := 200 }).1.status = some "success" ↔
      ({ status_code := 200 } : HttpResponse).status_code = 200) ∧
    (({ status_code := 200 } : HttpResponse).status_code ≠ 200 →
      ∃ pre, (retry_with_x402 ["https://api.example.com"] baseUsdcTable 1 baseWallet
          retryArgsFixture { status_code := 200 }).1.message =
        some (pre ++ "Payment was not settled.")) ∧
    (({ status_code := 200 } : HttpResponse).status_code = 200 →
      (retry_with_x402 ["https://api.example.com"] baseUsdcTable 1 baseWallet
          retryArgsFixture { status_code := 200 }).1.paymentUsed =
        some { network := retryArgsFixture.selected_payment_option.network
               asset := retryArgsFixture.selected_payment_option.asset
               amount := pyOr retryArgsFixture.selected_payment_option.max_amount_required
                 (pyOr retryArgsFixture.selected_payment_option.amount
                   retryArgsFixture.selected_payment_option.price) }) ∧
    ((make_http_request_with_x402 ["https://api.example.com"] baseWallet
        { url := "https://api.example.com/item" } { status_code := 200 }).1.success =
          some true ↔
      ({ status_code := 200 } : HttpResponse).status_code = 200) ∧
    (({ status_code := 200 } : HttpResponse).status_code ≠ 200 →
      ∃ pre, (make_http_request_with_x402 ["https://api.example.com"] baseWallet
          { url := "https://api.example.com/item" } { status_code := 200 }).1.message =
        some (pre ++ "Payment was not settled.")) :=
  settlement_only_on_200 ["https://api.example.com"] baseUsdcTable 1 baseWallet
    retryArgsFixture { url := "https://api.example.com/item" }
    { status_code := 200 } { status_code := 200 }
    (by decide) (by decide)
    ⟨{ is_valid := true, requested_amount := "0.01", max_amount := "1" }, by decide, rfl⟩
    (by decide) rfl (by decide)

/-- Claim C3: no payment is signed unless every guard re-passes at PAYING
entry — `retry_with_x402` reaches the x402 client and sends the signed
request only when the allow-list admits the URL (re-checked independently
of the check at `make_http_request`, which is stated as the last
conjunct), the selected option's asset is USDC, the amount is within the
configured limit, and the option's network matches the wallet; whenever
the paying step is not reached, the returned payload is an error and in
particular not a success. -/
theorem guards_precede_signing (regs : List String) (tbl : TokenTable) (max_usdc : Nat)
    (wp : WalletProvider) (rargs : RetryArgs) (resp : HttpResponse)
    (margs : HttpRequestArgs) (http : Nat → HttpResponse) :
    ((retry_with_x402 regs tbl max_usdc wp rargs resp).2 = true →
      is_url_allowed rargs.url regs = true ∧
      is_usdc_asset tbl (pyOrDefault (some rargs.selected_payment_option.asset) "") wp =
        true ∧
      (∃ v, validate_payment_limit
          (pyOrDefault (pyOr rargs.selected_payment_option.max_amount_required
            (pyOr rargs.selected_payment_option.amount rargs.selected_payment_option.price))
            "0") max_usdc = some v ∧ v.is_valid = true) ∧
      pyOrDefault (some rargs.selected_payment_option.network) "" ∈
        get_x402_networks wp.network ∧
      wp.is_evm_provider = true) ∧
    ((retry_with_x402 regs tbl max_usdc wp rargs resp).2 = false →
      (retry_with_x402 regs tbl max_usdc wp rargs resp).1.error = some true ∧
      (retry_with_x402 regs tbl max_usdc wp rargs resp).1.status ≠ some "success") ∧
    (is_url_allowed margs.url regs = false →
      (make_http_request regs tbl wp margs http).2 = [] ∧
      (make_http_request regs tbl wp margs http).1.error = some true) := by
  refine ⟨?_, ?_, ?_⟩
  · intro hsent
    by_cases g1 : is_url_allowed rargs.url regs = true
    · by_cases g2 :
        is_usdc_asset tbl (pyOrDefault (some rargs.selected_payment_option.asset) "") wp =
          true
      · cases hval : validate_payment_limit
            (pyOrDefault (pyOr rargs.selected_payment_option.max_amount_required
              (pyOr rargs.selected_payment_option.amount
                rargs.selected_payment_option.price)) "0") max_usdc with
        | none => simp [retry_with_x402, g1, g2, hval] at hsent
        | some v =>
          by_cases g4 : v.is_valid = true
          · by_cases g5 : pyOrDefault (some rargs.selected_payment_option.network) "" ∈
                get_x402_networks wp.network
            · by_cases g6 : wp.is_evm_provider = true
              · exact ⟨g1, g2, ⟨v, rfl, g4⟩, g5, g6⟩
              · simp [retry_with_x402, g1, g2, hval, g4, g5, g6] at hsent
            · simp [retry_with_x402, g1, g2, hval, g4, g5] at hsent
          · simp [retry_with_x402, g1, g2, hval, g4] at hsent
      · simp [retry_with_x402, g1, g2] at hsent
    · simp [retry_with_x402, g1] at hsent
  · intro hnot
    by_cases g1 : is_url_allowed rargs.url regs = true
    · by_cases g2 :
        is_usdc_asset tbl (pyOrDefault (some rargs.selected_payment_option.asset) "") wp =
          true
      · cases hval : validate_payment_limit
            (pyOrDefault (pyOr rargs.selected_payment_option.max_amount_required
              (pyOr rargs.selected_payment_option.amount
                rargs.selected_payment_option.price)) "0") max_usdc with
        | none => simp [retry_with_x402, g1, g2, hval, handle_http_error_payload]
        | some v =>
          by_cases g4 : v.is_valid = true
          · by_cases g5 : pyOrDefault (some rargs.selected_payment_option.network) "" ∈
                get_x402_networks wp.network
            · by_cases g6 : wp.is_evm_provider = true
              · simp only [retry_with_x402, g1, g2, hval, g4, g5, g6] at hnot
                norm_num at hnot
                split at hnot <;> simp at hnot
              · simp [retry_with_x402, g1, g2, hval, g4, g5, g6]
            · simp [retry_with_x402, g1, g2, hval, g4, g5]
          · simp [retry_with_x402, g1, g2, hval, g4]
      · simp [retry_with_x402, g1, g2]
    · simp [retry_with_x402, g1]
  · intro hnotallowed
    simp [make_http_request, hnotallowed]

/-- Witness for claim C3: with an empty registry the paying step is not
reached and the payload is an error. -/
theorem guards_precede_signing_witness :
    (retry_with_x402 [] baseUsdcTable 1 baseWallet retryArgsFixture
      { status_code := 200 }).2 = false ∧
    (retry_with_x402 [] baseUsdcTable 1 baseWallet retryArgsFixture
      { status_code := 200 }).1.error = some true ∧
    (retry_with_x402 [] baseUsdcTable 1 baseWallet retryArgsFixture
      { status_code := 200 }).1.status ≠ some "success" := by
  refine ⟨by decide, ?_⟩
  exact (guards_precede_signing [] baseUsdcTable 1 baseWallet retryArgsFixture
    { status_code := 200 } { url := "https://api.example.com/item" }
    (fun _ => { status_code := 200 })).2.1 (by decide)

end X402
